import Mathlib

/-!
Verification of the LendFoundry chatbot query-resolution pipeline.

This file gives a shallow embedding of the pipeline orchestrator of
`src/agents/gemini/sql_langgraph_agent_gemini.py` (the LangGraph workflow:
question rewriting, schema search, SQL generation, validation, execution,
natural-language generation, error handling), of the conversation store of
`lf_assist/app/api.py`, and of the execution node of
`viz_assist/agents/langgraph_agent.py`, together with proofs of the
specification's claims about them.

External collaborators (the language model, the vector store, the SQL
query runner, and the `_safe_sql` classifier, whose implementations live
outside this repository's source tree) are modelled as oracle functions
collected in an environment record; a fallible call is an
`Except String` value, mirroring Python's raised-exception-or-result
behaviour inside each node's `try`/`except` block.
-/

/-- The two message roles stored in conversation state
(`HumanMessage` / `AIMessage` in the source). -/
inductive Role where
  | user
  | assistant
deriving DecidableEq, Repr

/-- One conversation message (a "Turn" in the spec's data model). -/
structure Msg where
  role : Role
  content : String
deriving DecidableEq, Repr

/-- Substring scan: `containsSub needle hay` is `true` iff `needle`
occurs contiguously in `hay`.  This models Python's `needle in hay`
on strings. -/
def containsSub (needle : List Char) : List Char → Bool
  | [] => needle.isEmpty
  | c :: rest => needle.isPrefixOf (c :: rest) || containsSub needle rest

/-- Python `str.lower()`, character by character. -/
def toLowerStr (s : String) : String :=
  String.mk (s.data.map Char.toLower)

/-- Python `str.strip()`: drop leading and trailing whitespace. -/
def pyStrip (s : String) : String :=
  String.mk
    (((s.data.dropWhile Char.isWhitespace).reverse.dropWhile
        Char.isWhitespace).reverse)

/-- Python `str[:n]`: keep the first `n` characters. -/
def takeChars (n : Nat) (s : String) : String :=
  String.mk (s.data.take n)

/-- The gemini/bedrock/viz validation nodes all derive `is_safe` as
`"unsafe" not in safety_result.lower()`. -/
def isSafeMsg (safety_result : String) : Bool :=
  !(containsSub "unsafe".data (toLowerStr safety_result).data)

/-! ### Statement extractor (modelled from the spec)

`tools/extract_query.py` is not part of the available source tree (only
its call sites are), so the extractor is reconstructed from the spec. -/

/-- The backtick character, written via its code point. -/
def backtickChar : Char := Char.ofNat 96

/-- Modelled from the spec: `extract_sql_query` of the missing
`tools/extract_query.py` "strips code-fence markers".  Code fences are
made of backticks; we model this step as removing every backtick
character. -/
def stripFences (cs : List Char) : List Char :=
  cs.filter (fun c => c ≠ backtickChar)

/-- Comment-stripping state machine: when `inComment` is `true` the
scanner is inside a `--` line comment and drops characters until the
newline (kept); when `false`, a `--` pair switches into comment mode
(the second dash is consumed there) and any other character is kept. -/
def stripCommentsGo : Bool → List Char → List Char
  | _, [] => []
  | true, c :: rest =>
      if c = '\n' then '\n' :: stripCommentsGo false rest
      else stripCommentsGo true rest
  | false, c :: rest =>
      if c = '-' ∧ rest.head? = some '-' then stripCommentsGo true rest
      else c :: stripCommentsGo false rest

/-- Modelled from the spec: the optional `strip_comments` step of the
missing `extract_sql_query` removes SQL line comments (`--` up to the
end of the line, keeping the newline). -/
def stripLineComments (cs : List Char) : List Char :=
  stripCommentsGo false cs

/-- SQL statement-start keywords (lower case): the statement kinds the
spec's extractor and validator talk about. -/
def sqlKeywords : List (List Char) :=
  ["select", "with", "insert", "update", "delete", "drop", "create",
   "alter", "truncate", "grant", "revoke", "replace"].map String.data

/-- Predicate `startsWithLower kw cs` is `true` iff lower-casing the head of `cs`
spells the (lower-case) keyword `kw`. -/
def startsWithLower : List Char → List Char → Bool
  | [], _ => true
  | _ :: _, [] => false
  | k :: ks, c :: cs => (c.toLower = k) && startsWithLower ks cs

/-- Whether the text begins (case-insensitively) with a SQL
statement-start keyword. -/
def isStmtStart (cs : List Char) : Bool :=
  sqlKeywords.any (fun kw => startsWithLower kw cs)

/-- Modelled from the spec: drop "leading explanatory text" — skip
characters until a SQL statement-start keyword begins. -/
def findStart : List Char → List Char
  | [] => []
  | c :: rest => if isStmtStart (c :: rest) then c :: rest else findStart rest

/-- Modelled from the spec: keep "the first complete SQL statement" —
take characters up to and including the first `;` (everything after it,
trailing explanatory text included, is dropped); if there is no `;` the
whole remaining text is the statement. -/
def takeStmt : List Char → List Char
  | [] => []
  | c :: rest => if c = ';' then [';'] else c :: takeStmt rest

/-- Modelled from the spec: the character-level extractor pipeline of the
missing `tools/extract_query.py` — strip code fences, optionally strip
line comments, drop leading explanatory text, keep the first complete
statement. -/
def extractChars (strip_comments : Bool) (cs : List Char) : List Char :=
  takeStmt (findStart
    (if strip_comments then stripLineComments (stripFences cs) else stripFences cs))

/-- Modelled from the spec: `extract_sql_query(text, strip_comments)` of
the missing `tools/extract_query.py` (§4.4 Statement Extractor). -/
def extract_sql_query (text : String) (strip_comments : Bool) : String :=
  String.mk (extractChars strip_comments text.data)

/-! ### Gemini SQL LangGraph agent
(`src/agents/gemini/sql_langgraph_agent_gemini.py`) -/

/-- The `validation_result` dict produced by `_query_validation_node`. -/
structure ValidationResult where
  is_safe : Bool
  safety_message : String
  has_syntax_errors : Bool
deriving DecidableEq, Repr

/-- The `SQLAgentState` TypedDict of the gemini agent, one field per key.
Schema snippets keep only their `content` (their `score`/`metadata` are
produced by the vector store and passed through without ever being read
by the orchestrator). -/
structure SQLAgentState where
  user_question : String
  messages : List Msg
  schema_info : List String
  table_info : String
  raw_sql_query : String
  cleaned_sql_query : String
  validation_result : Option ValidationResult
  execution_result : String
  natural_language_response : String
  error_message : String
  current_step : String
  is_complete : Bool
  retry_count : Nat
deriving DecidableEq, Repr

/-- Observable calls to external collaborators made during a run
(used to state "the executor is never invoked" style properties). -/
inductive Event where
  | safety_check (sql : String)
  | execute (sql : String)
  | log_attempt (question sql thread_id status : String) (row_count : Nat)
deriving DecidableEq, Repr

/-- The external collaborators of `SQLLangGraphAgentGemini`, as
deterministic oracles for one run.  `Except.error e` models a raised
exception with message `str(e) = e`; `safe_sql` is the `_safe_sql`
classifier (implemented outside the source tree), which returns its
analysis message. -/
structure AgentEnv where
  llm_rewrite : String → String → Except String String
  vector_store : String → Except String (List String × String)
  sql_generator : String → String → Except String String
  safe_sql : String → String
  query_runner : Option (String → Except String String)
  llm_nl : String → String → Except String String

/-- Python `state.get("validation_result", {}).get("is_safe", False)`. -/
def getIsSafe (s : SQLAgentState) : Bool :=
  (s.validation_result.map (fun v => v.is_safe)).getD false

/-- Chat-history formatting shared by the rewrite and generation nodes:
`"User: c"` / `"Assistant: c"` lines joined with newlines. -/
def formatHistory (msgs : List Msg) : String :=
  String.intercalate "\n" (msgs.map (fun m =>
    match m.role with
    | Role.user => "User: " ++ m.content
    | Role.assistant => "Assistant: " ++ m.content))

/-- Node `_rewrite_question_node`: with no prior history (only the current
message) the question passes through unchanged; otherwise the LLM
rewrites it and the result is stripped. -/
def rewrite_question_node (env : AgentEnv) (s : SQLAgentState) :
    SQLAgentState × List Event :=
  if s.messages.length ≤ 1 then
    ({ s with user_question := s.user_question,
              current_step := "question_rewriting_skipped" }, [])
  else
    let chat_history_text := formatHistory s.messages.dropLast
    match env.llm_rewrite chat_history_text s.user_question with
    | Except.ok content =>
        ({ s with user_question := pyStrip content,
                  current_step := "question_rewriting_complete" }, [])
    | Except.error e =>
        ({ s with error_message := "Question rewriting failed: " ++ e,
                  current_step := "question_rewriting_failed" }, [])

/-- Node `_schema_search_node`: the two `similarity_search_with_score` calls
are modelled as one oracle call returning the processed
`(schema_info contents, table_info string)` pair. -/
def schema_search_node (env : AgentEnv) (s : SQLAgentState) :
    SQLAgentState × List Event :=
  let full_query := "User Question: " ++ s.user_question
  match env.vector_store full_query with
  | Except.ok (schema_info, table_info) =>
      ({ s with schema_info := schema_info, table_info := table_info,
                current_step := "schema_search_complete",
                error_message := "" }, [])
  | Except.error e =>
      ({ s with error_message := "Schema search failed: " ++ e,
                current_step := "schema_search_failed" }, [])

/-- Node `_sql_generation_node`: builds the full query from history and
question, joins the schema contents, and calls the SQL generator. -/
def sql_generation_node (env : AgentEnv) (s : SQLAgentState) :
    SQLAgentState × List Event :=
  let chat_history_text := formatHistory s.messages.dropLast
  let full_query :=
    if chat_history_text ≠ "" then
      chat_history_text ++ "\n\nUser Question: " ++ s.user_question
    else "User Question: " ++ s.user_question
  let schema_info_str := String.intercalate "\n" s.schema_info
  match env.sql_generator full_query schema_info_str with
  | Except.ok raw_query =>
      ({ s with raw_sql_query := raw_query,
                current_step := "sql_generation_complete",
                error_message := "" }, [])
  | Except.error e =>
      ({ s with error_message := "SQL generation failed: " ++ e,
                current_step := "sql_generation_failed" }, [])

/-- Node `_query_validation_node`: empty generated text is rejected before
the extractor or the safety classifier run; otherwise the statement is
extracted, classified by `_safe_sql`, and the verdict is
`"unsafe" not in safety_result.lower()`. -/
def query_validation_node (env : AgentEnv) (s : SQLAgentState) :
    SQLAgentState × List Event :=
  if s.raw_sql_query = "" then
    ({ s with error_message := "SQL generation returned no query.",
              current_step := "query_validation_failed" }, [])
  else
    let cleaned_query := extract_sql_query s.raw_sql_query true
    let safety_result := env.safe_sql cleaned_query
    ({ s with cleaned_sql_query := cleaned_query,
              validation_result := some
                { is_safe := isSafeMsg safety_result,
                  safety_message := safety_result,
                  has_syntax_errors := false },
              current_step := "query_validation_complete",
              error_message := "" },
     [Event.safety_check cleaned_query])

/-- Node `_query_execution_node`: without a runner the stage is skipped; a
successful run stores `str(result)`; a failure keeps the error and
increments `retry_count`. -/
def query_execution_node (env : AgentEnv) (s : SQLAgentState) :
    SQLAgentState × List Event :=
  match env.query_runner with
  | none =>
      ({ s with execution_result :=
                  "Query execution skipped - no query runner configured",
                current_step := "execution_skipped",
                is_complete := true }, [])
  | some run =>
      match run s.cleaned_sql_query with
      | Except.ok result =>
          ({ s with execution_result := result,
                    current_step := "execution_complete",
                    is_complete := false,
                    error_message := "" },
           [Event.execute s.cleaned_sql_query])
      | Except.error e =>
          ({ s with error_message := "Query execution failed: " ++ e,
                    current_step := "execution_failed",
                    retry_count := s.retry_count + 1 },
           [Event.execute s.cleaned_sql_query])

/-- Node `_natural_language_generation_node`: forwards execution errors,
otherwise asks the LLM for an answer; the answer (or the failure
message) is appended to `messages` and stored in `execution_result`
(the node never writes `natural_language_response`). -/
def natural_language_generation_node (env : AgentEnv) (s : SQLAgentState) :
    SQLAgentState × List Event :=
  if s.error_message ≠ "" ∧
      containsSub "Query execution failed".data s.error_message.data then
    ({ s with messages := s.messages ++ [⟨Role.assistant, s.error_message⟩],
              execution_result := s.error_message,
              current_step := "error_forwarded",
              is_complete := true }, [])
  else
    match env.llm_nl s.user_question s.execution_result with
    | Except.ok content =>
        let natural_language_response := pyStrip content
        ({ s with messages :=
                    s.messages ++ [⟨Role.assistant, natural_language_response⟩],
                  execution_result := natural_language_response,
                  current_step := "natural_language_generation_complete",
                  is_complete := true }, [])
    | Except.error e =>
        let error_msg := "Natural language generation failed: " ++ e
        ({ s with messages := s.messages ++ [⟨Role.assistant, error_msg⟩],
                  error_message := error_msg,
                  current_step := "natural_language_generation_failed",
                  is_complete := true }, [])

/-- Node `_error_handler_node` (the `error_message` key is always present in
the state dict, so Python's `.get` default is never used). -/
def error_handler_node (s : SQLAgentState) : SQLAgentState × List Event :=
  ({ s with messages := s.messages ++ [⟨Role.assistant, s.error_message⟩],
            execution_result := s.error_message,
            current_step := "error_handled",
            is_complete := true }, [])

/-- Result of the plain `continue`/`error` conditional edges. -/
inductive NextOrError where
  | next
  | error
deriving DecidableEq, Repr

/-- Result of `_should_continue_after_validation`. -/
inductive ValidationRoute where
  | execute
  | complete
  | error
deriving DecidableEq, Repr

/-- Result of `_should_retry_after_execution`. -/
inductive ExecutionRoute where
  | retry
  | continue_to_nl
  | error
deriving DecidableEq, Repr

/-- Router `_should_continue_after_rewrite`. -/
def should_continue_after_rewrite (s : SQLAgentState) : NextOrError :=
  if s.error_message ≠ "" then NextOrError.error else NextOrError.next

/-- Router `_should_continue_after_schema`. -/
def should_continue_after_schema (s : SQLAgentState) : NextOrError :=
  if s.error_message ≠ "" then NextOrError.error else NextOrError.next

/-- Router `_should_continue_after_generation`. -/
def should_continue_after_generation (s : SQLAgentState) : NextOrError :=
  if s.error_message ≠ "" then NextOrError.error else NextOrError.next

/-- Router `_should_continue_after_validation`: execute only when the verdict
is safe and a runner is configured; otherwise complete. -/
def should_continue_after_validation (env : AgentEnv) (s : SQLAgentState) :
    ValidationRoute :=
  if s.error_message ≠ "" then ValidationRoute.error
  else if getIsSafe s && env.query_runner.isSome then ValidationRoute.execute
  else ValidationRoute.complete

/-- Router `_should_retry_after_execution`: on error, retry while
`retry_count < 3`, else route to the error handler. -/
def should_retry_after_execution (s : SQLAgentState) : ExecutionRoute :=
  if s.error_message ≠ "" then
    if s.retry_count < 3 then ExecutionRoute.retry else ExecutionRoute.error
  else ExecutionRoute.continue_to_nl

/-- The generation → validation → execution segment of the workflow
graph, including the `retry → sql_generation` back-edge.  `fuel` bounds
the number of loop iterations; it only falls to `0` after at least
`fuel` retries, and the retry guard allows at most three generation
passes from `retry_count = 0` (see `run_gen_loop_retry_count_le` and
friends), so the `0` case is unreachable from `run_workflow`'s fuel
of `4`. -/
def run_gen_loop (env : AgentEnv) (s : SQLAgentState) :
    Nat → SQLAgentState × List Event
  | 0 => (s, [])
  | fuel + 1 =>
    let g := sql_generation_node env s
    match should_continue_after_generation g.1 with
    | NextOrError.error =>
        let h := error_handler_node g.1
        (h.1, g.2 ++ h.2)
    | NextOrError.next =>
        let v := query_validation_node env g.1
        match should_continue_after_validation env v.1 with
        | ValidationRoute.error =>
            let h := error_handler_node v.1
            (h.1, g.2 ++ v.2 ++ h.2)
        | ValidationRoute.complete => (v.1, g.2 ++ v.2)
        | ValidationRoute.execute =>
            let e := query_execution_node env v.1
            match should_retry_after_execution e.1 with
            | ExecutionRoute.retry =>
                let r := run_gen_loop env e.1 fuel
                (r.1, g.2 ++ v.2 ++ e.2 ++ r.2)
            | ExecutionRoute.error =>
                let h := error_handler_node e.1
                (h.1, g.2 ++ v.2 ++ e.2 ++ h.2)
            | ExecutionRoute.continue_to_nl =>
                let n := natural_language_generation_node env e.1
                (n.1, g.2 ++ v.2 ++ e.2 ++ n.2)

/-- The full workflow graph of `_build_workflow`, entry point
`rewrite_question`, run to `END`. -/
def run_workflow (env : AgentEnv) (s0 : SQLAgentState) :
    SQLAgentState × List Event :=
  let r := rewrite_question_node env s0
  match should_continue_after_rewrite r.1 with
  | NextOrError.error =>
      let h := error_handler_node r.1
      (h.1, r.2 ++ h.2)
  | NextOrError.next =>
      let sc := schema_search_node env r.1
      match should_continue_after_schema sc.1 with
      | NextOrError.error =>
          let h := error_handler_node sc.1
          (h.1, r.2 ++ sc.2 ++ h.2)
      | NextOrError.next =>
          let f := run_gen_loop env sc.1 4
          (f.1, r.2 ++ sc.2 ++ f.2)

/-- The initial `SQLAgentState` of `process_query`.  `prior` is the
thread's checkpointed message history: the `add_messages` reducer
appends the new `HumanMessage` to it. -/
def initial_state (prior : List Msg) (user_question : String) :
    SQLAgentState :=
  { user_question := user_question,
    messages := prior ++ [⟨Role.user, user_question⟩],
    schema_info := [],
    table_info := "",
    raw_sql_query := "",
    cleaned_sql_query := "",
    validation_result := none,
    execution_result := "",
    natural_language_response := "",
    error_message := "",
    current_step := "initialized",
    is_complete := false,
    retry_count := 0 }

/-- The two response shapes returned by `_format_response`. -/
inductive AgentResponse where
  | failure (error : String) (user_question : String) (current_step : String)
  | success (user_question : String) (schema_info : List String)
      (table_info raw_sql_query cleaned_sql_query : String)
      (validation_result : Option ValidationResult)
      (execution_result natural_language_response : String)
      (workflow_complete : Bool)
deriving DecidableEq, Repr

/-- The `success` key of the response. -/
def AgentResponse.isSuccess : AgentResponse → Bool
  | AgentResponse.failure _ _ _ => false
  | AgentResponse.success _ _ _ _ _ _ _ _ _ => true

/-- The `natural_language_response` field of a success response
(absent, hence empty, on failure responses). -/
def AgentResponse.natural_language : AgentResponse → String
  | AgentResponse.failure _ _ _ => ""
  | AgentResponse.success _ _ _ _ _ _ _ n _ => n

/-- The `execution_result` field of a success response. -/
def AgentResponse.execution_result_field : AgentResponse → String
  | AgentResponse.failure _ _ _ => ""
  | AgentResponse.success _ _ _ _ _ _ e _ _ => e

/-- The `validation_result` field of a success response. -/
def AgentResponse.validation_result_field :
    AgentResponse → Option ValidationResult
  | AgentResponse.failure _ _ _ => none
  | AgentResponse.success _ _ _ _ _ v _ _ _ => v

/-- Formatter `_format_response`: any pending `error_message` yields the failure
shape, otherwise the success shape echoing the state. -/
def format_response (s : SQLAgentState) : AgentResponse :=
  if s.error_message ≠ "" then
    AgentResponse.failure s.error_message s.user_question s.current_step
  else
    AgentResponse.success s.user_question s.schema_info s.table_info
      s.raw_sql_query s.cleaned_sql_query s.validation_result
      s.execution_result s.natural_language_response s.is_complete

/-- Entry point `process_query`: build the initial state, run the workflow, format
the response; the event trace records the external calls made. -/
def process_query (env : AgentEnv) (prior : List Msg)
    (user_question : String) : AgentResponse × List Event :=
  let f := run_workflow env (initial_state prior user_question)
  (format_response f.1, f.2)

/-- Number of `execute` events (query-runner invocations) in a trace. -/
def countExec (tr : List Event) : Nat :=
  (tr.filter (fun e =>
    match e with
    | Event.execute _ => true
    | _ => false)).length

/-- Number of `safety_check` events (`_safe_sql` invocations). -/
def countSafety (tr : List Event) : Nat :=
  (tr.filter (fun e =>
    match e with
    | Event.safety_check _ => true
    | _ => false)).length

/-- Number of `log_attempt` events (executor-logging notifications). -/
def countLog (tr : List Event) : Nat :=
  (tr.filter (fun e =>
    match e with
    | Event.log_attempt _ _ _ _ _ => true
    | _ => false)).length

/-! ### LF Assist conversation store (`lf_assist/app/api.py`) -/

/-- The process-wide `conversation_store` dict
(`session_id -> list of messages`), modelled as a total map; a missing
key reads as the empty history, matching the source's get-or-create. -/
def ConversationStore : Type := String → List Msg

/-- The store before any conversation happened. -/
def emptyStore : ConversationStore := fun _ => []

/-- Function `get_conversation_history(session_id)` (the source's lazy insertion
of `[]` for a new key does not change any subsequent read). -/
def get_conversation_history (store : ConversationStore)
    (session_id : String) : List Msg :=
  store session_id

/-- Function `add_to_conversation(session_id, message)`: append, then if the list
exceeds 20 entries keep the last 20 (`[-20:]`, i.e. drop all but the
final 20). -/
def add_to_conversation (store : ConversationStore) (session_id : String)
    (message : Msg) : ConversationStore :=
  fun k =>
    if k = session_id then
      let l := store session_id ++ [message]
      if 20 < l.length then l.drop (l.length - 20) else l
    else store k

/-- Appending a whole list of turns to one session, oldest first. -/
def add_all (store : ConversationStore) (session_id : String)
    (msgs : List Msg) : ConversationStore :=
  msgs.foldl (fun st m => add_to_conversation st session_id m) store

/-! ### Viz Assist execution node
(`viz_assist/agents/langgraph_agent.py`, `_query_execution_node`) -/

/-- Left brace character, written via its code point. -/
def lbrace : String := String.mk [Char.ofNat 123]

/-- Right brace character, written via its code point. -/
def rbrace : String := String.mk [Char.ofNat 125]

/-- The result of the viz query runner's `run`, by the Python type
dispatch in the node: a pandas DataFrame (kept as its already-serialized
records), a list of records, a single dict, `None`, or any other type
(which makes the JSON conversion raise a `ValueError`). -/
inductive RunResult where
  | frame (records : List String)
  | list_of (records : List String)
  | dict_of (record : String)
  | none_result
  | other
deriving DecidableEq, Repr

/-- The row count the viz node computes for each result shape
(`len(result)`, `1` for a dict, `0` otherwise). -/
def RunResult.row_count : RunResult → Nat
  | RunResult.frame records => records.length
  | RunResult.list_of records => records.length
  | RunResult.dict_of _ => 1
  | RunResult.none_result => 0
  | RunResult.other => 0

/-- Model of `json.dumps` of a list of already-serialized records. -/
def jsonDumps (records : List String) : String :=
  "[" ++ String.intercalate ", " records ++ "]"

/-- Model of `json.dumps` of an error dict. -/
def jsonError (msg : String) : String :=
  lbrace ++ "\"error\": \"" ++ msg ++ "\"" ++ rbrace

/-- The subset of the viz agent's `SQLAgentState` read or written by its
`_query_execution_node` (its other fields — `messages`, `schema_info`,
`chart_analysis`, … — are untouched by that node and omitted here). -/
structure VizState where
  user_question : String
  cleaned_sql_query : String
  execution_result : String
  execution_data_json : String
  error_message : String
  current_step : String
  is_complete : Bool
  retry_count : Nat
deriving DecidableEq, Repr

/-- The viz agent's executor collaborator: `run` returns a typed result
or raises, `log_query` is modelled as an emitted `log_attempt` event
(fire-and-forget per the spec's interface). -/
structure VizEnv where
  query_runner : Option (String → Except String RunResult)

/-- The `(execution_data_json, execution_result)` pair the viz node
computes from a non-`None` result inside its inner `try` (the `other`
case is the raised-and-caught `ValueError`). -/
def vizConvert : RunResult → String × String
  | RunResult.frame records =>
      (jsonDumps records,
       "Query returned " ++ toString records.length ++ " rows")
  | RunResult.list_of records =>
      (jsonDumps records,
       "Query returned " ++ toString records.length ++ " rows")
  | RunResult.dict_of record => ("[" ++ record ++ "]", "Query returned 1 row")
  | RunResult.none_result => ("[]", "No data returned")
  | RunResult.other =>
      (jsonError
        "Could not convert to JSON: Query runner must return DataFrame, list[dict], or dict",
       "Error: Query runner must return DataFrame, list[dict], or dict")

/-- The viz agent's `_query_execution_node`: a successful attempt is
always logged with status `"success"` and the computed row count; a
failed attempt is logged with a `"failed: …"` status (error truncated to
200 characters) and row count `0`, but only when `cleaned_sql_query` is
non-empty. -/
def viz_query_execution_node (env : VizEnv) (thread_id : String)
    (s : VizState) : VizState × List Event :=
  match env.query_runner with
  | none =>
      ({ s with execution_result :=
                  "Query execution skipped - no query runner configured",
                execution_data_json := jsonError "No query runner configured",
                current_step := "execution_skipped",
                is_complete := true }, [])
  | some run =>
      match run s.cleaned_sql_query with
      | Except.ok result =>
          let conv := vizConvert result
          ({ s with execution_result := conv.2,
                    execution_data_json := conv.1,
                    current_step := "execution_complete",
                    is_complete := false,
                    error_message := "" },
           [Event.log_attempt s.user_question s.cleaned_sql_query thread_id
              "success" result.row_count])
      | Except.error e =>
          ({ s with error_message := "Query execution failed: " ++ e,
                    current_step := "execution_failed",
                    retry_count := s.retry_count + 1 },
           if s.cleaned_sql_query ≠ "" then
             [Event.log_attempt s.user_question s.cleaned_sql_query thread_id
                ("failed: " ++ takeChars 200 e) 0]
           else [])

/-! ### Concrete runs used as counterexamples and witnesses -/

/-- A one-shot environment for scenario runs: schema search succeeds
with no snippets, the generator returns `gen`, the safety classifier
always answers `msg`, with the given runner and answer synthesizer. -/
def mkScenarioEnv (gen msg : String)
    (runner : Option (String → Except String String))
    (nl : String → String → Except String String) : AgentEnv :=
  { llm_rewrite := fun _ _ => Except.ok "",
    vector_store := fun _ => Except.ok ([], ""),
    sql_generator := fun _ _ => Except.ok gen,
    safe_sql := fun _ => msg,
    query_runner := runner,
    llm_nl := nl }

/-- Scenario-A style environment: a safe `SELECT`, a runner returning a
one-row result, a working answer synthesizer. -/
def envOkRun : AgentEnv :=
  mkScenarioEnv "SELECT COUNT(*) FROM loan_onboarding;" "The query is safe."
    (some (fun _ => Except.ok "[(42,)]"))
    (fun _ _ => Except.ok "There are 42 loans.")

/-- Scenario-B style environment: the generator emits a `DROP TABLE`
statement, the classifier flags it, a runner is configured. -/
def envDropRun : AgentEnv :=
  mkScenarioEnv "DROP TABLE loan_onboarding;"
    "UNSAFE: the statement contains DROP."
    (some (fun _ => Except.ok "[]"))
    (fun _ _ => Except.ok "done")

/-- Scenario-D style environment: every execution attempt raises. -/
def envAllFail : AgentEnv :=
  mkScenarioEnv "SELECT * FROM missing_table;" "The query is safe."
    (some (fun _ => Except.error "relation missing_table does not exist"))
    (fun _ _ => Except.ok "unused")

/-- Synthesis-failure environment: execution succeeds, the
natural-language LLM call raises. -/
def envNlFail : AgentEnv :=
  mkScenarioEnv "SELECT 1;" "The query is safe."
    (some (fun _ => Except.ok "[(1,)]"))
    (fun _ _ => Except.error "boom")

/-- Empty-generation environment: the generator returns the empty
string. -/
def envEmptyGen : AgentEnv :=
  mkScenarioEnv "" "never called"
    (some (fun _ => Except.ok "[]"))
    (fun _ _ => Except.ok "unused")

/-- Environment whose rewriter succeeds but answers only whitespace. -/
def envWhitespaceRewrite : AgentEnv :=
  { llm_rewrite := fun _ _ => Except.ok "   ",
    vector_store := fun _ => Except.error "not reached",
    sql_generator := fun _ _ => Except.error "not reached",
    safe_sql := fun _ => "",
    query_runner := none,
    llm_nl := fun _ _ => Except.error "not reached" }

/-- Twenty-five turns used to exercise the history cap. -/
def demoMsgs : List Msg :=
  (List.range 25).map (fun i => ⟨Role.user, toString i⟩)

/-- A viz-node state about to execute a concrete statement. -/
def vizDemoState : VizState :=
  { user_question := "How many active loans are there?",
    cleaned_sql_query := "SELECT COUNT(*) FROM loan_onboarding;",
    execution_result := "",
    execution_data_json := "",
    error_message := "",
    current_step := "query_validation_complete",
    is_complete := false,
    retry_count := 0 }

/-! ### Extractor lemmas -/

theorem takeStmt_prefixOf (cs : List Char) : takeStmt cs <+: cs := by
  induction cs with
  | nil => simp [takeStmt]
  | cons c rest ih =>
    simp only [takeStmt]
    by_cases h : c = ';'
    · simp [h]
    · simp [h, List.cons_prefix_cons, ih]

theorem findStart_suffix (cs : List Char) : findStart cs <:+ cs := by
  induction cs with
  | nil => simp [findStart]
  | cons c rest ih =>
    simp only [findStart]
    by_cases h : isStmtStart (c :: rest)
    · simp [h]
    · simp only [h, if_false]
      exact ih.trans (List.suffix_cons c rest)

theorem takeStmt_takeStmt (cs : List Char) :
    takeStmt (takeStmt cs) = takeStmt cs := by
  induction cs with
  | nil => simp [takeStmt]
  | cons c rest ih =>
    by_cases h : c = ';'
    · simp [takeStmt, h]
    · simp [takeStmt, h, ih]

theorem semicolon_not_in_sqlKeywords : ∀ kw ∈ sqlKeywords, ';' ∉ kw := by
  decide

theorem startsWithLower_takeStmt (kw : List Char) (hkw : ';' ∉ kw) :
    ∀ cs : List Char, startsWithLower kw cs = true →
      startsWithLower kw (takeStmt cs) = true := by
  induction kw with
  | nil => intro cs _; simp [startsWithLower]
  | cons k ks ih =>
    intro cs h
    cases cs with
    | nil => simp [startsWithLower] at h
    | cons c rest =>
      simp only [startsWithLower, Bool.and_eq_true, decide_eq_true_eq] at h
      obtain ⟨h1, h2⟩ := h
      have hc : c ≠ ';' := by
        intro hc
        apply hkw
        rw [← h1, hc]
        exact List.mem_cons_self _ _
      simp only [takeStmt, if_neg hc]
      simp only [startsWithLower, Bool.and_eq_true, decide_eq_true_eq]
      exact ⟨h1, ih (fun hm => hkw (List.mem_cons_of_mem _ hm)) rest h2⟩

theorem isStmtStart_takeStmt (cs : List Char) (h : isStmtStart cs = true) :
    isStmtStart (takeStmt cs) = true := by
  simp only [isStmtStart, List.any_eq_true] at h ⊢
  obtain ⟨kw, hmem, hsw⟩ := h
  exact ⟨kw, hmem,
    startsWithLower_takeStmt kw (semicolon_not_in_sqlKeywords kw hmem) cs hsw⟩

theorem findStart_eq_self (cs : List Char) (h : isStmtStart cs = true) :
    findStart cs = cs := by
  cases cs with
  | nil => rfl
  | cons c rest => simp [findStart, h]

theorem findStart_cases (cs : List Char) :
    findStart cs = [] ∨ isStmtStart (findStart cs) = true := by
  induction cs with
  | nil => left; rfl
  | cons c rest ih =>
    by_cases h : isStmtStart (c :: rest)
    · right
      simp [findStart, h]
    · simpa [findStart, h] using ih

theorem mem_stripCommentsGo (cs : List Char) :
    ∀ flag : Bool, ∀ a ∈ stripCommentsGo flag cs, a ∈ cs := by
  induction cs with
  | nil =>
    intro flag a ha
    simp [stripCommentsGo] at ha
  | cons c rest ih =>
    intro flag a ha
    cases flag with
    | true =>
      by_cases h : c = '\n'
      · simp only [stripCommentsGo, if_pos h, List.mem_cons] at ha
        rcases ha with rfl | ha
        · rw [h]; exact List.mem_cons_self _ _
        · exact List.mem_cons_of_mem _ (ih false a ha)
      · simp only [stripCommentsGo, if_neg h] at ha
        exact List.mem_cons_of_mem _ (ih true a ha)
    | false =>
      by_cases h : c = '-' ∧ rest.head? = some '-'
      · simp only [stripCommentsGo, if_pos h] at ha
        exact List.mem_cons_of_mem _ (ih true a ha)
      · simp only [stripCommentsGo, if_neg h, List.mem_cons] at ha
        rcases ha with rfl | ha
        · exact List.mem_cons_self _ _
        · exact List.mem_cons_of_mem _ (ih false a ha)

theorem mem_stripLineComments {a : Char} {cs : List Char}
    (h : a ∈ stripLineComments cs) : a ∈ cs :=
  mem_stripCommentsGo cs false a h

theorem noDoubleDash_stripCommentsGo (cs : List Char) :
    ∀ flag : Bool, ¬(['-', '-'] <:+: stripCommentsGo flag cs) := by
  induction cs with
  | nil =>
    intro flag
    simp [stripCommentsGo]
  | cons c rest ih =>
    intro flag
    cases flag with
    | true =>
      by_cases h : c = '\n'
      · simp only [stripCommentsGo, if_pos h]
        intro hinf
        rcases List.infix_cons_iff.mp hinf with hpre | hinf2
        · rcases List.cons_prefix_cons.mp hpre with ⟨hc, _⟩
          exact absurd hc.symm (by decide)
        · exact ih false hinf2
      · simp only [stripCommentsGo, if_neg h]
        exact ih true
    | false =>
      by_cases h : c = '-' ∧ rest.head? = some '-'
      · simp only [stripCommentsGo, if_pos h]
        exact ih true
      · simp only [stripCommentsGo, if_neg h]
        intro hinf
        rcases List.infix_cons_iff.mp hinf with hpre | hinf2
        · rcases List.cons_prefix_cons.mp hpre with ⟨hc, hpre2⟩
          cases rest with
          | nil => simp [stripCommentsGo] at hpre2
          | cons d r2 =>
            by_cases hd : d = '-'
            · exact h ⟨hc.symm, by rw [hd]; rfl⟩
            · have hne : ¬(d = '-' ∧ r2.head? = some '-') := fun hx => hd hx.1
              simp only [stripCommentsGo, if_neg hne] at hpre2
              rcases List.cons_prefix_cons.mp hpre2 with ⟨hd2, _⟩
              exact hd hd2.symm
        · exact ih false hinf2

theorem noDoubleDash_stripLineComments (cs : List Char) :
    ¬(['-', '-'] <:+: stripLineComments cs) :=
  noDoubleDash_stripCommentsGo cs false

theorem stripLineComments_eq_self (cs : List Char)
    (h : ¬(['-', '-'] <:+: cs)) : stripLineComments cs = cs := by
  unfold stripLineComments
  induction cs with
  | nil => simp [stripCommentsGo]
  | cons c rest ih =>
    by_cases hc : c = '-' ∧ rest.head? = some '-'
    · exfalso
      apply h
      obtain ⟨h1, h2⟩ := hc
      cases rest with
      | nil => simp at h2
      | cons d r2 =>
        simp only [List.head?_cons, Option.some.injEq] at h2
        subst h1; subst h2
        exact ⟨[], r2, rfl⟩
    · simp only [stripCommentsGo, if_neg hc]
      rw [ih (fun hi => h (hi.trans (List.infix_cons List.infix_rfl)))]

theorem mem_stripFences {a : Char} {cs : List Char} (h : a ∈ stripFences cs) :
    a ≠ backtickChar := by
  simp only [stripFences, List.mem_filter, decide_eq_true_eq] at h
  exact h.2

theorem stripFences_eq_self {cs : List Char}
    (h : ∀ a ∈ cs, a ≠ backtickChar) : stripFences cs = cs := by
  apply List.filter_eq_self.mpr
  intro a ha
  simpa using h a ha

theorem extractChars_post_fixed (b : Bool) (w : List Char)
    (hbt : ∀ a ∈ w, a ≠ backtickChar)
    (hdd : b = true → ¬(['-', '-'] <:+: w)) :
    extractChars b (takeStmt (findStart w)) = takeStmt (findStart w) := by
  have hyw : takeStmt (findStart w) <:+: w :=
    (takeStmt_prefixOf _).isInfix.trans (findStart_suffix w).isInfix
  have hybt : ∀ a ∈ takeStmt (findStart w), a ≠ backtickChar :=
    fun a ha => hbt a (hyw.sublist.subset ha)
  have h1 : stripFences (takeStmt (findStart w)) = takeStmt (findStart w) :=
    stripFences_eq_self hybt
  have h2 : (if b then stripLineComments (stripFences (takeStmt (findStart w)))
      else stripFences (takeStmt (findStart w))) = takeStmt (findStart w) := by
    cases b with
    | false => simpa using h1
    | true =>
      simp only [if_pos rfl, h1]
      exact stripLineComments_eq_self _ (fun hi => hdd rfl (hi.trans hyw))
  unfold extractChars
  rw [h2]
  rcases findStart_cases w with hnil | hstart
  · rw [hnil]
    rfl
  · rw [findStart_eq_self _ (isStmtStart_takeStmt _ hstart), takeStmt_takeStmt]

theorem extractChars_idem (b : Bool) (cs : List Char) :
    extractChars b (extractChars b cs) = extractChars b cs := by
  have hbt : ∀ a ∈ (if b then stripLineComments (stripFences cs)
      else stripFences cs), a ≠ backtickChar := by
    intro a ha
    cases b with
    | false =>
      rw [if_neg (by decide)] at ha
      exact mem_stripFences ha
    | true =>
      rw [if_pos (by decide)] at ha
      exact mem_stripFences (mem_stripLineComments ha)
  have hdd : b = true →
      ¬(['-', '-'] <:+: (if b then stripLineComments (stripFences cs)
        else stripFences cs)) := by
    intro hb
    subst hb
    simp only [if_pos rfl]
    exact noDoubleDash_stripLineComments (stripFences cs)
  exact extractChars_post_fixed b _ hbt hdd

/-- C9: Extraction idempotence — the statement extractor is idempotent:
for every generated text `x` (and either comment-stripping mode),
`extract(extract(x)) = extract(x)`; re-extracting an already-cleaned
statement yields the same string. -/
theorem C9_extraction_idempotence (x : String) (b : Bool) :
    extract_sql_query (extract_sql_query x b) b = extract_sql_query x b := by
  show String.mk (extractChars b (extractChars b x.data)) =
    String.mk (extractChars b x.data)
  rw [extractChars_idem]

/-! ### Node-level lemmas for the gemini workflow -/

theorem rewrite_question_node_trace (env : AgentEnv) (s : SQLAgentState) :
    (rewrite_question_node env s).2 = [] := by
  simp only [rewrite_question_node]
  split
  · rfl
  · split <;> rfl

theorem rewrite_question_node_retry (env : AgentEnv) (s : SQLAgentState) :
    (rewrite_question_node env s).1.retry_count = s.retry_count := by
  simp only [rewrite_question_node]
  split
  · rfl
  · split <;> rfl

theorem schema_search_node_trace (env : AgentEnv) (s : SQLAgentState) :
    (schema_search_node env s).2 = [] := by
  simp only [schema_search_node]
  split <;> rfl

theorem schema_search_node_retry (env : AgentEnv) (s : SQLAgentState) :
    (schema_search_node env s).1.retry_count = s.retry_count := by
  simp only [schema_search_node]
  split <;> rfl

theorem sql_generation_node_cases (env : AgentEnv) (s : SQLAgentState) :
    (∃ raw, sql_generation_node env s =
      ({ s with raw_sql_query := raw,
                current_step := "sql_generation_complete",
                error_message := "" }, [])) ∨
    (∃ e, sql_generation_node env s =
      ({ s with error_message := "SQL generation failed: " ++ e,
                current_step := "sql_generation_failed" }, [])) := by
  simp only [sql_generation_node]
  split
  · left; exact ⟨_, rfl⟩
  · right; exact ⟨_, rfl⟩

theorem query_validation_node_cases (env : AgentEnv) (s : SQLAgentState) :
    (s.raw_sql_query = "" ∧ query_validation_node env s =
      ({ s with error_message := "SQL generation returned no query.",
                current_step := "query_validation_failed" }, [])) ∨
    (s.raw_sql_query ≠ "" ∧ query_validation_node env s =
      ({ s with
          cleaned_sql_query := extract_sql_query s.raw_sql_query true,
          validation_result := some
            { is_safe :=
                isSafeMsg (env.safe_sql (extract_sql_query s.raw_sql_query true)),
              safety_message :=
                env.safe_sql (extract_sql_query s.raw_sql_query true),
              has_syntax_errors := false },
          current_step := "query_validation_complete",
          error_message := "" },
       [Event.safety_check (extract_sql_query s.raw_sql_query true)])) := by
  by_cases h : s.raw_sql_query = ""
  · left
    exact ⟨h, by simp [query_validation_node, h]⟩
  · right
    exact ⟨h, by simp [query_validation_node, h]⟩

theorem query_execution_node_cases (env : AgentEnv) (s : SQLAgentState) :
    (env.query_runner = none ∧ query_execution_node env s =
      ({ s with execution_result :=
                  "Query execution skipped - no query runner configured",
                current_step := "execution_skipped",
                is_complete := true }, [])) ∨
    (∃ run result, env.query_runner = some run ∧
      run s.cleaned_sql_query = Except.ok result ∧
      query_execution_node env s =
        ({ s with execution_result := result,
                  current_step := "execution_complete",
                  is_complete := false,
                  error_message := "" },
         [Event.execute s.cleaned_sql_query])) ∨
    (∃ run e, env.query_runner = some run ∧
      run s.cleaned_sql_query = Except.error e ∧
      query_execution_node env s =
        ({ s with error_message := "Query execution failed: " ++ e,
                  current_step := "execution_failed",
                  retry_count := s.retry_count + 1 },
         [Event.execute s.cleaned_sql_query])) := by
  cases hq : env.query_runner with
  | none =>
    left
    exact ⟨rfl, by simp [query_execution_node, hq]⟩
  | some run =>
    right
    cases hr : run s.cleaned_sql_query with
    | ok result =>
      left
      exact ⟨run, result, rfl, hr, by simp [query_execution_node, hq, hr]⟩
    | error e =>
      right
      exact ⟨run, e, rfl, hr, by simp [query_execution_node, hq, hr]⟩

theorem natural_language_generation_node_trace (env : AgentEnv)
    (s : SQLAgentState) :
    (natural_language_generation_node env s).2 = [] := by
  simp only [natural_language_generation_node]
  split
  · rfl
  · split <;> rfl

theorem natural_language_generation_node_retry (env : AgentEnv)
    (s : SQLAgentState) :
    (natural_language_generation_node env s).1.retry_count = s.retry_count := by
  simp only [natural_language_generation_node]
  split
  · rfl
  · split <;> rfl

theorem error_handler_node_shape (s : SQLAgentState) :
    error_handler_node s =
      ({ s with messages := s.messages ++ [⟨Role.assistant, s.error_message⟩],
                execution_result := s.error_message,
                current_step := "error_handled",
                is_complete := true }, []) := rfl

theorem str_append_ne_empty (pre e : String) (hp : pre ≠ "") :
    pre ++ e ≠ "" := by
  intro h
  apply hp
  cases pre with
  | mk l =>
    cases e with
    | mk m =>
      have hlm : l ++ m = [] := congrArg String.data h
      rcases List.append_eq_nil.mp hlm with ⟨h1, _⟩
      subst h1
      rfl

theorem countExec_append (a b : List Event) :
    countExec (a ++ b) = countExec a + countExec b := by
  simp [countExec, List.filter_append]

theorem countSafety_append (a b : List Event) :
    countSafety (a ++ b) = countSafety a + countSafety b := by
  simp [countSafety, List.filter_append]

theorem countLog_append (a b : List Event) :
    countLog (a ++ b) = countLog a + countLog b := by
  simp [countLog, List.filter_append]

theorem validation_route_execute {env : AgentEnv} {s : SQLAgentState}
    (h : should_continue_after_validation env s = ValidationRoute.execute) :
    s.error_message = "" ∧ getIsSafe s = true ∧
      env.query_runner.isSome = true := by
  unfold should_continue_after_validation at h
  split_ifs at h with h1 h2
  exact ⟨not_ne_iff.mp h1, (Bool.and_eq_true _ _).mp h2⟩

theorem should_retry_eq_retry_iff (s : SQLAgentState) :
    should_retry_after_execution s = ExecutionRoute.retry ↔
      s.error_message ≠ "" ∧ s.retry_count < 3 := by
  unfold should_retry_after_execution
  split_ifs with h1 h2 <;> simp_all

theorem should_retry_eq_error_iff (s : SQLAgentState) :
    should_retry_after_execution s = ExecutionRoute.error ↔
      s.error_message ≠ "" ∧ ¬ s.retry_count < 3 := by
  unfold should_retry_after_execution
  split_ifs with h1 h2 <;> simp_all

theorem should_retry_eq_continue_iff (s : SQLAgentState) :
    should_retry_after_execution s = ExecutionRoute.continue_to_nl ↔
      s.error_message = "" := by
  unfold should_retry_after_execution
  split_ifs with h1 h2 <;> simp_all

theorem run_gen_loop_exec_safe (env : AgentEnv) :
    ∀ (fuel : Nat) (s : SQLAgentState) (sql : String),
      Event.execute sql ∈ (run_gen_loop env s fuel).2 →
        isSafeMsg (env.safe_sql sql) = true := by
  intro fuel
  induction fuel with
  | zero =>
    intro s sql h
    simp [run_gen_loop] at h
  | succ fuel ih =>
    intro s sql h
    simp only [run_gen_loop] at h
    rcases sql_generation_node_cases env s with ⟨raw, hg⟩ | ⟨e, hg⟩ <;>
      rw [hg] at h
    case succ.inr.intro =>
      have hne := str_append_ne_empty "SQL generation failed: " e (by decide)
      simp [should_continue_after_generation, hne, error_handler_node] at h
    case succ.inl.intro =>
      simp only [should_continue_after_generation] at h
      rw [if_neg (by simp)] at h
      rcases query_validation_node_cases env
          ({ s with raw_sql_query := raw,
                    current_step := "sql_generation_complete",
                    error_message := "" }) with ⟨hraw, hv⟩ | ⟨hraw, hv⟩ <;>
        rw [hv] at h
      case inl.intro =>
        simp [should_continue_after_validation, error_handler_node] at h
      case inr.intro =>
        simp only at hraw
        simp only at h
        rcases hroute : should_continue_after_validation env
            ({ s with raw_sql_query := raw,
                      current_step := "query_validation_complete",
                      error_message := "",
                      cleaned_sql_query := extract_sql_query raw true,
                      validation_result := some
                        { is_safe := isSafeMsg (env.safe_sql (extract_sql_query raw true)),
                          safety_message := env.safe_sql (extract_sql_query raw true),
                          has_syntax_errors := false } }) with
          hexec | hcomp | herr
        all_goals rw [hroute] at h
        case error =>
          simp [error_handler_node] at h
        case complete =>
          simp at h
        case execute =>
          have hsafe := (validation_route_execute hroute).2.1
          simp only [getIsSafe, Option.map_some, Option.getD_some] at hsafe
          rcases query_execution_node_cases env
              ({ s with raw_sql_query := raw,
                        current_step := "query_validation_complete",
                        error_message := "",
                        cleaned_sql_query := extract_sql_query raw true,
                        validation_result := some
                          { is_safe := isSafeMsg (env.safe_sql (extract_sql_query raw true)),
                            safety_message := env.safe_sql (extract_sql_query raw true),
                            has_syntax_errors := false } }) with
            ⟨hq, he⟩ | ⟨run, result, hq, hr, he⟩ | ⟨run, e2, hq, hr, he⟩
          all_goals rw [he] at h
          · have := (validation_route_execute hroute).2.2
            rw [hq] at this
            simp at this
          · simp only [should_retry_after_execution] at h
            rw [if_neg (by simp)] at h
            simp [natural_language_generation_node_trace] at h
            subst h
            exact hsafe
          · have hne := str_append_ne_empty "Query execution failed: " e2
              (by decide)
            simp only [should_retry_after_execution] at h
            rw [if_pos (by simpa using hne)] at h
            by_cases hrc : s.retry_count + 1 < 3
            · rw [if_pos (by simpa using hrc)] at h
              simp [countExec_append] at h
              rcases h with h | h
              · subst h
                exact hsafe
              · exact ih _ sql h
            · rw [if_neg (by simpa using hrc)] at h
              simp [error_handler_node] at h
              subst h
              exact hsafe

theorem run_gen_loop_retry_count (env : AgentEnv) :
    ∀ (fuel : Nat) (s : SQLAgentState), s.retry_count ≤ 2 →
      (run_gen_loop env s fuel).1.retry_count ≤ 3 ∧
      ((run_gen_loop env s fuel).1.retry_count = 3 →
        (∃ e, (run_gen_loop env s fuel).1.error_message =
          "Query execution failed: " ++ e) ∧
        (run_gen_loop env s fuel).1.current_step = "error_handled") := by
  intro fuel
  induction fuel with
  | zero =>
    intro s hrc
    simp only [run_gen_loop]
    exact ⟨by omega, fun h3 => absurd h3 (by omega)⟩
  | succ fuel ih =>
    intro s hrc
    simp only [run_gen_loop]
    rcases sql_generation_node_cases env s with ⟨raw, hg⟩ | ⟨e, hg⟩ <;>
      rw [hg]
    case succ.inr.intro =>
      have hne := str_append_ne_empty "SQL generation failed: " e (by decide)
      simp [should_continue_after_generation, hne, error_handler_node]
      exact ⟨by omega, fun h3 => absurd h3 (by omega)⟩
    case succ.inl.intro =>
      simp only [should_continue_after_generation]
      rw [if_neg (by simp)]
      rcases query_validation_node_cases env
          ({ s with raw_sql_query := raw,
                    current_step := "sql_generation_complete",
                    error_message := "" }) with ⟨hraw, hv⟩ | ⟨hraw, hv⟩ <;>
        rw [hv]
      case inl.intro =>
        simp [should_continue_after_validation, error_handler_node]
        exact ⟨by omega, fun h3 => absurd h3 (by omega)⟩
      case inr.intro =>
        simp only
        rcases hroute : should_continue_after_validation env
            ({ s with raw_sql_query := raw,
                      current_step := "query_validation_complete",
                      error_message := "",
                      cleaned_sql_query := extract_sql_query raw true,
                      validation_result := some
                        { is_safe := isSafeMsg (env.safe_sql (extract_sql_query raw true)),
                          safety_message := env.safe_sql (extract_sql_query raw true),
                          has_syntax_errors := false } }) with
          hexec | hcomp | herr
        case error =>
          simp [error_handler_node]
          exact ⟨by omega, fun h3 => absurd h3 (by omega)⟩
        case complete =>
          simp
          exact ⟨by omega, fun h3 => absurd h3 (by omega)⟩
        case execute =>
          rcases query_execution_node_cases env
              ({ s with raw_sql_query := raw,
                        current_step := "query_validation_complete",
                        error_message := "",
                        cleaned_sql_query := extract_sql_query raw true,
                        validation_result := some
                          { is_safe := isSafeMsg (env.safe_sql (extract_sql_query raw true)),
                            safety_message := env.safe_sql (extract_sql_query raw true),
                            has_syntax_errors := false } }) with
            ⟨hq, he⟩ | ⟨run, result, hq, hr, he⟩ | ⟨run, e2, hq, hr, he⟩
          all_goals rw [he]
          · have := (validation_route_execute hroute).2.2
            rw [hq] at this
            simp at this
          · simp only [should_retry_after_execution]
            rw [if_neg (by simp)]
            simp only
            rw [natural_language_generation_node_retry]
            exact ⟨by simp; omega, fun h3 => absurd h3 (by simp; omega)⟩
          · have hne := str_append_ne_empty "Query execution failed: " e2
              (by decide)
            simp only [should_retry_after_execution]
            rw [if_pos (by simpa using hne)]
            by_cases hrc2 : s.retry_count + 1 < 3
            · rw [if_pos (by simpa using hrc2)]
              simp only
              exact ih _ (by simp; omega)
            · rw [if_neg (by simpa using hrc2)]
              simp [error_handler_node]
              exact hrc

theorem run_gen_loop_exec_count (env : AgentEnv) :
    ∀ (fuel : Nat) (s : SQLAgentState), s.retry_count ≤ 2 →
      countExec (run_gen_loop env s fuel).2 ≤ 3 - s.retry_count := by
  intro fuel
  induction fuel with
  | zero =>
    intro s _
    simp [run_gen_loop, countExec]
  | succ fuel ih =>
    intro s hrc
    simp only [run_gen_loop]
    rcases sql_generation_node_cases env s with ⟨raw, hg⟩ | ⟨e, hg⟩ <;>
      rw [hg]
    case succ.inr.intro =>
      have hne := str_append_ne_empty "SQL generation failed: " e (by decide)
      simp [should_continue_after_generation, hne, error_handler_node,
        countExec]
    case succ.inl.intro =>
      simp only [should_continue_after_generation]
      rw [if_neg (by simp)]
      rcases query_validation_node_cases env
          ({ s with raw_sql_query := raw,
                    current_step := "sql_generation_complete",
                    error_message := "" }) with ⟨hraw, hv⟩ | ⟨hraw, hv⟩ <;>
        rw [hv]
      case inl.intro =>
        simp [should_continue_after_validation, error_handler_node, countExec]
      case inr.intro =>
        simp only
        rcases hroute : should_continue_after_validation env
            ({ s with raw_sql_query := raw,
                      current_step := "query_validation_complete",
                      error_message := "",
                      cleaned_sql_query := extract_sql_query raw true,
                      validation_result := some
                        { is_safe := isSafeMsg (env.safe_sql (extract_sql_query raw true)),
                          safety_message := env.safe_sql (extract_sql_query raw true),
                          has_syntax_errors := false } }) with
          hexec | hcomp | herr
        case error =>
          simp [error_handler_node, countExec]
        case complete =>
          simp [countExec]
        case execute =>
          rcases query_execution_node_cases env
              ({ s with raw_sql_query := raw,
                        current_step := "query_validation_complete",
                        error_message := "",
                        cleaned_sql_query := extract_sql_query raw true,
                        validation_result := some
                          { is_safe := isSafeMsg (env.safe_sql (extract_sql_query raw true)),
                            safety_message := env.safe_sql (extract_sql_query raw true),
                            has_syntax_errors := false } }) with
            ⟨hq, he⟩ | ⟨run, result, hq, hr, he⟩ | ⟨run, e2, hq, hr, he⟩
          all_goals rw [he]
          · have := (validation_route_execute hroute).2.2
            rw [hq] at this
            simp at this
          · simp only [should_retry_after_execution]
            rw [if_neg (by simp)]
            simp only
            simp [countExec_append, natural_language_generation_node_trace,
              countExec]
            omega
          · have hne := str_append_ne_empty "Query execution failed: " e2
              (by decide)
            simp only [should_retry_after_execution]
            rw [if_pos (by simpa using hne)]
            by_cases hrc2 : s.retry_count + 1 < 3
            · rw [if_pos (by simpa using hrc2)]
              simp only
              have hrec := ih
                ({ s with raw_sql_query := raw,
                          current_step := "execution_failed",
                          error_message := "Query execution failed: " ++ e2,
                          cleaned_sql_query := extract_sql_query raw true,
                          validation_result := some
                            { is_safe := isSafeMsg (env.safe_sql (extract_sql_query raw true)),
                              safety_message := env.safe_sql (extract_sql_query raw true),
                              has_syntax_errors := false },
                          retry_count := s.retry_count + 1 }) (by simp; omega)
              simp only at hrec
              simp [countExec_append, countExec] at hrec ⊢
              omega
            · rw [if_neg (by simpa using hrc2)]
              simp [error_handler_node, countExec_append, countExec]
              omega

theorem run_gen_loop_log_count (env : AgentEnv) :
    ∀ (fuel : Nat) (s : SQLAgentState),
      countLog (run_gen_loop env s fuel).2 = 0 := by
  intro fuel
  induction fuel with
  | zero =>
    intro s
    simp [run_gen_loop, countLog]
  | succ fuel ih =>
    intro s
    simp only [run_gen_loop]
    rcases sql_generation_node_cases env s with ⟨raw, hg⟩ | ⟨e, hg⟩ <;>
      rw [hg]
    case succ.inr.intro =>
      have hne := str_append_ne_empty "SQL generation failed: " e (by decide)
      simp [should_continue_after_generation, hne, error_handler_node,
        countLog]
    case succ.inl.intro =>
      simp only [should_continue_after_generation]
      rw [if_neg (by simp)]
      rcases query_validation_node_cases env
          ({ s with raw_sql_query := raw,
                    current_step := "sql_generation_complete",
                    error_message := "" }) with ⟨hraw, hv⟩ | ⟨hraw, hv⟩ <;>
        rw [hv]
      case inl.intro =>
        simp [should_continue_after_validation, error_handler_node, countLog]
      case inr.intro =>
        simp only
        rcases hroute : should_continue_after_validation env
            ({ s with raw_sql_query := raw,
                      current_step := "query_validation_complete",
                      error_message := "",
                      cleaned_sql_query := extract_sql_query raw true,
                      validation_result := some
                        { is_safe := isSafeMsg (env.safe_sql (extract_sql_query raw true)),
                          safety_message := env.safe_sql (extract_sql_query raw true),
                          has_syntax_errors := false } }) with
          hexec | hcomp | herr
        case error =>
          simp [error_handler_node, countLog]
        case complete =>
          simp [countLog]
        case execute =>
          rcases query_execution_node_cases env
              ({ s with raw_sql_query := raw,
                        current_step := "query_validation_complete",
                        error_message := "",
                        cleaned_sql_query := extract_sql_query raw true,
                        validation_result := some
                          { is_safe := isSafeMsg (env.safe_sql (extract_sql_query raw true)),
                            safety_message := env.safe_sql (extract_sql_query raw true),
                            has_syntax_errors := false } }) with
            ⟨hq, he⟩ | ⟨run, result, hq, hr, he⟩ | ⟨run, e2, hq, hr, he⟩
          all_goals rw [he]
          · have := (validation_route_execute hroute).2.2
            rw [hq] at this
            simp at this
          · simp only [should_retry_after_execution]
            rw [if_neg (by simp)]
            simp [countLog_append, natural_language_generation_node_trace,
              countLog]
          · have hne := str_append_ne_empty "Query execution failed: " e2
              (by decide)
            simp only [should_retry_after_execution]
            rw [if_pos (by simpa using hne)]
            by_cases hrc2 : s.retry_count + 1 < 3
            · rw [if_pos (by simpa using hrc2)]
              simp only
              simp only [countLog_append, ih]
              simp [countLog]
            · rw [if_neg (by simpa using hrc2)]
              simp [error_handler_node, countLog_append, countLog]

theorem sql_generation_node_retry (env : AgentEnv) (s : SQLAgentState) :
    (sql_generation_node env s).1.retry_count = s.retry_count := by
  rcases sql_generation_node_cases env s with ⟨raw, hg⟩ | ⟨e, hg⟩ <;>
    rw [hg]

theorem query_validation_node_retry (env : AgentEnv) (s : SQLAgentState) :
    (query_validation_node env s).1.retry_count = s.retry_count := by
  rcases query_validation_node_cases env s with ⟨_, hv⟩ | ⟨_, hv⟩ <;> rw [hv]

theorem error_handler_node_retry (s : SQLAgentState) :
    (error_handler_node s).1.retry_count = s.retry_count := rfl

theorem query_execution_node_retry (env : AgentEnv) (s : SQLAgentState) :
    (query_execution_node env s).1.retry_count = s.retry_count ∨
      ((query_execution_node env s).1.retry_count = s.retry_count + 1 ∧
        ∃ run e, env.query_runner = some run ∧
          run s.cleaned_sql_query = Except.error e) := by
  rcases query_execution_node_cases env s with ⟨hq, he⟩ |
    ⟨run, result, hq, hr, he⟩ | ⟨run, e, hq, hr, he⟩
  · left; rw [he]
  · left; rw [he]
  · right
    rw [he]
    exact ⟨rfl, run, e, hq, hr⟩

theorem run_workflow_exec_safe (env : AgentEnv) (s0 : SQLAgentState)
    (sql : String)
    (h : Event.execute sql ∈ (run_workflow env s0).2) :
    isSafeMsg (env.safe_sql sql) = true := by
  simp only [run_workflow] at h
  rcases h1 : should_continue_after_rewrite (rewrite_question_node env s0).1
    with _ | _ <;> rw [h1] at h
  case error =>
    simp [rewrite_question_node_trace, error_handler_node] at h
  case next =>
    rcases h2 : should_continue_after_schema
        (schema_search_node env (rewrite_question_node env s0).1).1
      with _ | _ <;> rw [h2] at h
    case error =>
      simp [rewrite_question_node_trace, schema_search_node_trace,
        error_handler_node] at h
    case next =>
      simp [rewrite_question_node_trace, schema_search_node_trace] at h
      exact run_gen_loop_exec_safe env 4 _ sql h

theorem run_workflow_retry_count (env : AgentEnv) (s0 : SQLAgentState)
    (h0 : s0.retry_count ≤ 2) :
    (run_workflow env s0).1.retry_count ≤ 3 ∧
    ((run_workflow env s0).1.retry_count = 3 →
      (∃ e, (run_workflow env s0).1.error_message =
        "Query execution failed: " ++ e) ∧
      (run_workflow env s0).1.current_step = "error_handled") := by
  simp only [run_workflow]
  rcases h1 : should_continue_after_rewrite (rewrite_question_node env s0).1
    with _ | _
  case error =>
    simp only [error_handler_node]
    have := rewrite_question_node_retry env s0
    exact ⟨by omega, fun h3 => absurd h3 (by omega)⟩
  case next =>
    rcases h2 : should_continue_after_schema
        (schema_search_node env (rewrite_question_node env s0).1).1
      with _ | _
    case error =>
      simp only [error_handler_node]
      have ha := rewrite_question_node_retry env s0
      have hb := schema_search_node_retry env (rewrite_question_node env s0).1
      exact ⟨by omega, fun h3 => absurd h3 (by omega)⟩
    case next =>
      have ha := rewrite_question_node_retry env s0
      have hb := schema_search_node_retry env (rewrite_question_node env s0).1
      exact run_gen_loop_retry_count env 4 _ (by omega)

theorem run_workflow_exec_count (env : AgentEnv) (s0 : SQLAgentState)
    (h0 : s0.retry_count ≤ 2) :
    countExec (run_workflow env s0).2 ≤ 3 - s0.retry_count := by
  simp only [run_workflow]
  rcases h1 : should_continue_after_rewrite (rewrite_question_node env s0).1
    with _ | _
  case error =>
    simp [rewrite_question_node_trace, error_handler_node, countExec]
  case next =>
    rcases h2 : should_continue_after_schema
        (schema_search_node env (rewrite_question_node env s0).1).1
      with _ | _
    case error =>
      simp [rewrite_question_node_trace, schema_search_node_trace,
        error_handler_node, countExec]
    case next =>
      have ha := rewrite_question_node_retry env s0
      have hb := schema_search_node_retry env (rewrite_question_node env s0).1
      have hc := run_gen_loop_exec_count env 4
        (schema_search_node env (rewrite_question_node env s0).1).1 (by omega)
      simp only [countExec_append, rewrite_question_node_trace,
        schema_search_node_trace]
      have hnil : countExec ([] : List Event) = 0 := rfl
      simp only [hnil]
      omega

theorem run_workflow_log_count (env : AgentEnv) (s0 : SQLAgentState) :
    countLog (run_workflow env s0).2 = 0 := by
  simp only [run_workflow]
  rcases h1 : should_continue_after_rewrite (rewrite_question_node env s0).1
    with _ | _
  case error =>
    simp [rewrite_question_node_trace, error_handler_node, countLog]
  case next =>
    rcases h2 : should_continue_after_schema
        (schema_search_node env (rewrite_question_node env s0).1).1
      with _ | _
    case error =>
      simp [rewrite_question_node_trace, schema_search_node_trace,
        error_handler_node, countLog]
    case next =>
      have hc := run_gen_loop_log_count env 4
        (schema_search_node env (rewrite_question_node env s0).1).1
      simp only [countLog_append, rewrite_question_node_trace,
        schema_search_node_trace, hc]
      simp [countLog]

/-- C1: Safety gate — in every pipeline run, a statement is executed only
if the Safety Validator's verdict on it is safe: structurally, the
validation router returns `execute` only when `is_safe` is `true` (there
is no transition from an unsafe verdict to the execution stage), and in
any run every `execute` event concerns a statement whose safety message
was classified safe. -/
theorem C1_safety_gate :
    (∀ (env : AgentEnv) (s : SQLAgentState),
      should_continue_after_validation env s = ValidationRoute.execute →
        getIsSafe s = true) ∧
    (∀ (env : AgentEnv) (prior : List Msg) (q sql : String),
      Event.execute sql ∈ (process_query env prior q).2 →
        isSafeMsg (env.safe_sql sql) = true) := by
  constructor
  · intro env s h
    exact (validation_route_execute h).2.1
  · intro env prior q sql h
    exact run_workflow_exec_safe env (initial_state prior q) sql h

set_option maxRecDepth 20000 in
/-- Witness for C1: a concrete run in which the executor is invoked on a
safely-classified statement. -/
theorem C1_safety_gate_witness :
    Event.execute "SELECT COUNT(*) FROM loan_onboarding;" ∈
      (process_query envOkRun [] "How many active loans are there?").2 ∧
    isSafeMsg (envOkRun.safe_sql "SELECT COUNT(*) FROM loan_onboarding;") =
      true :=
  ⟨by decide,
   C1_safety_gate.2 envOkRun [] "How many active loans are there?"
     "SELECT COUNT(*) FROM loan_onboarding;" (by decide)⟩

/-- C2: Retry bound — `retry_count` starts at `0`; every node except the
execution node preserves it; the execution node increments it exactly on
an execution failure; after an error the router retries exactly while
`retry_count < 3`; in every run from the initial state the final
`retry_count` is at most `3`, at most three execution attempts happen,
and a run ending with `retry_count = 3` terminated through the error
handler with an execution-failure error and a `success = false`
response. -/
theorem C2_retry_bound :
    (∀ (prior : List Msg) (q : String),
      (initial_state prior q).retry_count = 0) ∧
    (∀ (env : AgentEnv) (s : SQLAgentState),
      (rewrite_question_node env s).1.retry_count = s.retry_count ∧
      (schema_search_node env s).1.retry_count = s.retry_count ∧
      (sql_generation_node env s).1.retry_count = s.retry_count ∧
      (query_validation_node env s).1.retry_count = s.retry_count ∧
      (natural_language_generation_node env s).1.retry_count = s.retry_count ∧
      (error_handler_node s).1.retry_count = s.retry_count) ∧
    (∀ (env : AgentEnv) (s : SQLAgentState),
      (query_execution_node env s).1.retry_count = s.retry_count ∨
        ((query_execution_node env s).1.retry_count = s.retry_count + 1 ∧
          ∃ run e, env.query_runner = some run ∧
            run s.cleaned_sql_query = Except.error e)) ∧
    (∀ s : SQLAgentState, s.error_message ≠ "" →
      (should_retry_after_execution s = ExecutionRoute.retry ↔
        s.retry_count < 3)) ∧
    (∀ (env : AgentEnv) (prior : List Msg) (q : String),
      (run_workflow env (initial_state prior q)).1.retry_count ≤ 3) ∧
    (∀ (env : AgentEnv) (prior : List Msg) (q : String),
      countExec (process_query env prior q).2 ≤ 3) ∧
    (∀ (env : AgentEnv) (prior : List Msg) (q : String),
      (run_workflow env (initial_state prior q)).1.retry_count = 3 →
        (∃ e, (run_workflow env (initial_state prior q)).1.error_message =
          "Query execution failed: " ++ e) ∧
        (process_query env prior q).1 = AgentResponse.failure
          (run_workflow env (initial_state prior q)).1.error_message
          (run_workflow env (initial_state prior q)).1.user_question
          "error_handled") := by
  refine ⟨fun prior q => rfl, ?_, ?_, ?_, ?_, ?_, ?_⟩
  · intro env s
    exact ⟨rewrite_question_node_retry env s, schema_search_node_retry env s,
      sql_generation_node_retry env s, query_validation_node_retry env s,
      natural_language_generation_node_retry env s,
      error_handler_node_retry s⟩
  · intro env s
    exact query_execution_node_retry env s
  · intro s hne
    exact (should_retry_eq_retry_iff s).trans (and_iff_right hne)
  · intro env prior q
    exact (run_workflow_retry_count env (initial_state prior q)
      (by simp [initial_state])).1
  · intro env prior q
    have h := run_workflow_exec_count env (initial_state prior q)
      (by simp [initial_state])
    simpa [initial_state] using h
  · intro env prior q h3
    obtain ⟨⟨e, he⟩, hstep⟩ := (run_workflow_retry_count env
      (initial_state prior q) (by simp [initial_state])).2 h3
    refine ⟨⟨e, he⟩, ?_⟩
    show format_response (run_workflow env (initial_state prior q)).1 = _
    unfold format_response
    rw [if_pos]
    · rw [hstep]
    · rw [he]
      exact str_append_ne_empty _ _ (by decide)

set_option maxRecDepth 20000 in
/-- Witness for C2: the all-executions-fail run reaches
`retry_count = 3` and terminates through the error handler with an
execution-failure error and a failure response. -/
theorem C2_retry_bound_witness :
    (run_workflow envAllFail (initial_state [] "q")).1.retry_count = 3 ∧
    ((∃ e, (run_workflow envAllFail (initial_state [] "q")).1.error_message =
      "Query execution failed: " ++ e) ∧
     (process_query envAllFail [] "q").1 = AgentResponse.failure
       (run_workflow envAllFail (initial_state [] "q")).1.error_message
       (run_workflow envAllFail (initial_state [] "q")).1.user_question
       "error_handled") :=
  ⟨by decide, C2_retry_bound.2.2.2.2.2.2 envAllFail [] "q" (by decide)⟩

set_option maxRecDepth 20000 in
/-- Counterexample for C3: in the Scenario-B run (generator emits
`DROP TABLE loan_onboarding;`, validator flags it, runner configured)
the pipeline does terminate with `success = true` and without any
executor call, but the response carries no explanatory answer at all:
both `natural_language_response` and `execution_result` are empty — the
validator's reason survives only as the raw `safety_message` inside
`validation_result`. -/
theorem C3_validation_rejection_counterexample :
    (process_query envDropRun [] "drop it").1 =
      AgentResponse.success "drop it" [] "" "DROP TABLE loan_onboarding;"
        "DROP TABLE loan_onboarding;"
        (some { is_safe := false,
                safety_message := "UNSAFE: the statement contains DROP.",
                has_syntax_errors := false }) "" "" false ∧
    (process_query envDropRun [] "drop it").2 =
      [Event.safety_check "DROP TABLE loan_onboarding;"] := by
  constructor <;> decide

/-- C3 (amended): whenever the Safety Validator rejects the cleaned
statement, the pipeline terminates without any executor call and the
final response has `success = true`; but the response carries no
synthesized explanatory answer — `natural_language_response` and
`execution_result` stay empty — and the validator's reason is exposed
only as the raw `safety_message` inside the response's
`validation_result`. -/
theorem C3_validation_rejection (gen msg q : String)
    (runner : String → Except String String)
    (nl : String → String → Except String String)
    (hgen : gen ≠ "") (hmsg : isSafeMsg msg = false) :
    countExec (process_query (mkScenarioEnv gen msg (some runner) nl)
      [] q).2 = 0 ∧
    (process_query (mkScenarioEnv gen msg (some runner) nl) [] q).1 =
      AgentResponse.success q [] "" gen (extract_sql_query gen true)
        (some { is_safe := false, safety_message := msg,
                has_syntax_errors := false }) "" "" false := by
  constructor <;>
    simp [process_query, run_workflow, run_gen_loop, rewrite_question_node,
      schema_search_node, sql_generation_node, query_validation_node,
      initial_state, mkScenarioEnv, should_continue_after_rewrite,
      should_continue_after_schema, should_continue_after_generation,
      should_continue_after_validation, getIsSafe, format_response,
      formatHistory, hgen, hmsg, countExec]

set_option maxRecDepth 20000 in
/-- Witness for C3 (amended): the Scenario-B instantiation. -/
theorem C3_validation_rejection_witness :
    "DROP TABLE loan_onboarding;" ≠ "" ∧
    isSafeMsg "UNSAFE: the statement contains DROP." = false ∧
    countExec (process_query (mkScenarioEnv "DROP TABLE loan_onboarding;"
      "UNSAFE: the statement contains DROP."
      (some (fun _ => Except.ok "[]")) (fun _ _ => Except.ok "done"))
      [] "drop it").2 = 0 :=
  ⟨by decide, by decide,
   (C3_validation_rejection "DROP TABLE loan_onboarding;"
     "UNSAFE: the statement contains DROP." "drop it"
     (fun _ => Except.ok "[]") (fun _ _ => Except.ok "done")
     (by decide) (by decide)).1⟩

set_option maxRecDepth 20000 in
/-- Counterexample for C4: with a successful execution (`[(1,)]`) and a
failing answer synthesizer, the run terminates with `success = false`
and the synthesis failure as `error` — not with a `success = true`
fallback answer; the execution data survives only in the discarded
pipeline state, not in the response. -/
theorem C4_synthesis_fallback_counterexample :
    (process_query envNlFail [] "q").1 =
      AgentResponse.failure "Natural language generation failed: boom" "q"
        "natural_language_generation_failed" ∧
    (run_workflow envNlFail (initial_state [] "q")).1.execution_result =
      "[(1,)]" ∧
    countExec (process_query envNlFail [] "q").2 = 1 := by
  refine ⟨by decide, by decide, by decide⟩

/-- C4 (amended): for every run in which query execution succeeded but
answer synthesis then fails, the pipeline state retains the execution
result, but the run terminates with `success = false` and error
`"Natural language generation failed: …"`; no templated fallback answer
is produced and the failure response does not include the execution
data. -/
theorem C4_synthesis_failure (gen msg rows err q : String)
    (hgen : gen ≠ "") (hmsg : isSafeMsg msg = true) :
    (run_workflow (mkScenarioEnv gen msg (some (fun _ => Except.ok rows))
        (fun _ _ => Except.error err)) (initial_state [] q)).1.execution_result
      = rows ∧
    (process_query (mkScenarioEnv gen msg (some (fun _ => Except.ok rows))
        (fun _ _ => Except.error err)) [] q).1 =
      AgentResponse.failure ("Natural language generation failed: " ++ err)
        q "natural_language_generation_failed" := by
  have hne := str_append_ne_empty "Natural language generation failed: " err
    (by decide)
  constructor <;>
    simp [process_query, run_workflow, run_gen_loop, rewrite_question_node,
      schema_search_node, sql_generation_node, query_validation_node,
      query_execution_node, natural_language_generation_node,
      initial_state, mkScenarioEnv, should_continue_after_rewrite,
      should_continue_after_schema, should_continue_after_generation,
      should_continue_after_validation, should_retry_after_execution,
      getIsSafe, format_response, formatHistory, hgen, hmsg, hne]

set_option maxRecDepth 20000 in
/-- Witness for C4 (amended): the synthesis-failure scenario
instantiated concretely. -/
theorem C4_synthesis_failure_witness :
    "SELECT 1;" ≠ "" ∧ isSafeMsg "The query is safe." = true ∧
    (process_query (mkScenarioEnv "SELECT 1;" "The query is safe."
        (some (fun _ => Except.ok "[(1,)]"))
        (fun _ _ => Except.error "boom")) [] "q").1 =
      AgentResponse.failure "Natural language generation failed: boom" "q"
        "natural_language_generation_failed" :=
  ⟨by decide, by decide,
   (C4_synthesis_failure "SELECT 1;" "The query is safe." "[(1,)]" "boom" "q"
     (by decide) (by decide)).2⟩

theorem rewrite_question_node_cases (env : AgentEnv) (s : SQLAgentState) :
    (s.messages.length ≤ 1 ∧ rewrite_question_node env s =
      ({ s with current_step := "question_rewriting_skipped" }, [])) ∨
    (¬ s.messages.length ≤ 1 ∧ ∃ r,
      env.llm_rewrite (formatHistory s.messages.dropLast) s.user_question =
        Except.ok r ∧
      rewrite_question_node env s =
        ({ s with user_question := pyStrip r,
                  current_step := "question_rewriting_complete" }, [])) ∨
    (¬ s.messages.length ≤ 1 ∧ ∃ e,
      env.llm_rewrite (formatHistory s.messages.dropLast) s.user_question =
        Except.error e ∧
      rewrite_question_node env s =
        ({ s with error_message := "Question rewriting failed: " ++ e,
                  current_step := "question_rewriting_failed" }, [])) := by
  by_cases h : s.messages.length ≤ 1
  · left
    exact ⟨h, by simp [rewrite_question_node, h]⟩
  · right
    cases hr : env.llm_rewrite (formatHistory s.messages.dropLast)
        s.user_question with
    | ok r =>
      left
      exact ⟨h, r, rfl, by simp [rewrite_question_node, h, hr]⟩
    | error e =>
      right
      exact ⟨h, e, rfl, by simp [rewrite_question_node, h, hr]⟩

theorem schema_search_node_cases (env : AgentEnv) (s : SQLAgentState) :
    (∃ si ti, env.vector_store ("User Question: " ++ s.user_question) =
        Except.ok (si, ti) ∧
      schema_search_node env s =
        ({ s with schema_info := si, table_info := ti,
                  current_step := "schema_search_complete",
                  error_message := "" }, [])) ∨
    (∃ e, env.vector_store ("User Question: " ++ s.user_question) =
        Except.error e ∧
      schema_search_node env s =
        ({ s with error_message := "Schema search failed: " ++ e,
                  current_step := "schema_search_failed" }, [])) := by
  cases hv : env.vector_store ("User Question: " ++ s.user_question) with
  | ok p =>
    obtain ⟨si, ti⟩ := p
    left
    exact ⟨si, ti, rfl, by simp [schema_search_node, hv]⟩
  | error e =>
    right
    exact ⟨e, rfl, by simp [schema_search_node, hv]⟩

theorem sql_generation_node_of_ok (env : AgentEnv) (s : SQLAgentState)
    (raw : String)
    (h : env.sql_generator
      (if formatHistory s.messages.dropLast ≠ "" then
        formatHistory s.messages.dropLast ++ "\n\nUser Question: " ++
          s.user_question
      else "User Question: " ++ s.user_question)
      (String.intercalate "\n" s.schema_info) = Except.ok raw) :
    sql_generation_node env s =
      ({ s with raw_sql_query := raw,
                current_step := "sql_generation_complete",
                error_message := "" }, []) := by
  simp only [sql_generation_node, h]

/-- C5: Empty-generation handling — if the SQL generator returns the
empty string (Python's falsy check also covers `None`), the run never
invokes the safety classifier or the executor, and terminates as a
generation failure: `success = false` with error
`"SQL generation returned no query."` (the `GenerationError` class of
§7), routed through the error handler. -/
theorem C5_empty_generation (env : AgentEnv) (prior : List Msg) (q : String)
    (hgen : ∀ fq ss, env.sql_generator fq ss = Except.ok "")
    (hrw : ∀ hist qq, ∃ r, env.llm_rewrite hist qq = Except.ok r)
    (hss : ∀ fq, ∃ si ti, env.vector_store fq = Except.ok (si, ti)) :
    countSafety (process_query env prior q).2 = 0 ∧
    countExec (process_query env prior q).2 = 0 ∧
    ∃ uq, (process_query env prior q).1 =
      AgentResponse.failure "SQL generation returned no query." uq
        "error_handled" := by
  have hrun : ∀ s1 : SQLAgentState, s1.error_message = "" →
      run_gen_loop env s1 4 =
        ({ s1 with raw_sql_query := "",
                   error_message := "SQL generation returned no query.",
                   current_step := "error_handled",
                   is_complete := true,
                   messages := s1.messages ++
                     [⟨Role.assistant, "SQL generation returned no query."⟩],
                   execution_result := "SQL generation returned no query." },
         []) := by
    intro s1 hs1
    have hg := sql_generation_node_of_ok env s1 "" (hgen _ _)
    simp only [run_gen_loop, hg]
    rcases query_validation_node_cases env
        ({ s1 with raw_sql_query := "",
                   current_step := "sql_generation_complete",
                   error_message := "" }) with ⟨hraw, hv⟩ | ⟨hraw, hv⟩
    · rw [hv]
      have hne := str_append_ne_empty "SQL generation returned no query." ""
        (by decide)
      simp [should_continue_after_generation,
        should_continue_after_validation, error_handler_node]
    · exact absurd rfl hraw
  simp only [process_query, run_workflow]
  rcases rewrite_question_node_cases env (initial_state prior q) with
    ⟨hlen, hr⟩ | ⟨hlen, r, hok, hr⟩ | ⟨hlen, e, hok, hr⟩
  case inr.inr.intro.intro.intro =>
    obtain ⟨r, hr2⟩ := hrw (formatHistory (initial_state prior q).messages.dropLast)
      (initial_state prior q).user_question
    rw [hok] at hr2
    cases hr2
  all_goals rw [hr]
  all_goals simp only [should_continue_after_rewrite]
  all_goals rw [if_neg (by simp [initial_state])]
  case inl.intro =>
    rcases schema_search_node_cases env
        ({ initial_state prior q with
            current_step := "question_rewriting_skipped" }) with
      ⟨si, ti, hok2, hs⟩ | ⟨e2, hok2, hs⟩
    · rw [hs]
      simp only [should_continue_after_schema]
      rw [if_neg (by simp)]
      rw [hrun _ (by simp)]
      refine ⟨by simp [countSafety], by simp [countExec], q, ?_⟩
      simp [format_response, initial_state,
        str_append_ne_empty "SQL generation returned no query." ""]
    · obtain ⟨si, ti, h3⟩ := hss _
      rw [hok2] at h3
      cases h3
  case inr.inl.intro.intro.intro =>
    rcases schema_search_node_cases env
        ({ initial_state prior q with
            user_question := pyStrip r,
            current_step := "question_rewriting_complete" }) with
      ⟨si, ti, hok2, hs⟩ | ⟨e2, hok2, hs⟩
    · rw [hs]
      simp only [should_continue_after_schema]
      rw [if_neg (by simp)]
      rw [hrun _ (by simp)]
      refine ⟨by simp [countSafety], by simp [countExec], pyStrip r, ?_⟩
      simp [format_response, initial_state,
        str_append_ne_empty "SQL generation returned no query." ""]
    · obtain ⟨si, ti, h3⟩ := hss _
      rw [hok2] at h3
      cases h3

/-- Witness for C5: the empty-generation environment instantiated
concretely. -/
theorem C5_empty_generation_witness :
    countSafety (process_query envEmptyGen [] "q").2 = 0 ∧
    countExec (process_query envEmptyGen [] "q").2 = 0 ∧
    ∃ uq, (process_query envEmptyGen [] "q").1 =
      AgentResponse.failure "SQL generation returned no query." uq
        "error_handled" :=
  C5_empty_generation envEmptyGen [] "q" (fun _ _ => rfl)
    (fun _ _ => ⟨"", rfl⟩) (fun _ => ⟨[], "", rfl⟩)

set_option maxRecDepth 20000 in
/-- Counterexample for C6: a gemini run that makes three execution
attempts (all failing) emits zero logging notifications — the gemini
orchestrator's execution node has no call to any logging interface, so
no audit record exists for any attempt. -/
theorem C6_execution_logging_counterexample :
    countExec (process_query envAllFail [] "q").2 = 3 ∧
    countLog (process_query envAllFail [] "q").2 = 0 := by
  constructor <;> decide

/-- C6 (amended): the gemini orchestrator never notifies any logging
interface (its runs contain no `log_attempt` events at all).  In the
viz_assist orchestrator, the execution node logs every attempt made with
a configured runner: on success with status `"success"` and the
computed row count; on failure with status `"failed: …"` (error message
truncated to 200 characters) and row count `0` — except that a failed
attempt whose cleaned SQL text is empty is not logged. -/
theorem C6_execution_logging :
    (∀ (env : AgentEnv) (prior : List Msg) (q : String),
      countLog (process_query env prior q).2 = 0) ∧
    (∀ (venv : VizEnv) (tid : String) (s : VizState)
        (run : String → Except String RunResult) (res : RunResult),
      venv.query_runner = some run →
      run s.cleaned_sql_query = Except.ok res →
      (viz_query_execution_node venv tid s).2 =
        [Event.log_attempt s.user_question s.cleaned_sql_query tid
          "success" res.row_count]) ∧
    (∀ (venv : VizEnv) (tid : String) (s : VizState)
        (run : String → Except String RunResult) (e : String),
      venv.query_runner = some run →
      run s.cleaned_sql_query = Except.error e →
      s.cleaned_sql_query ≠ "" →
      (viz_query_execution_node venv tid s).2 =
        [Event.log_attempt s.user_question s.cleaned_sql_query tid
          ("failed: " ++ takeChars 200 e) 0]) ∧
    (∀ (venv : VizEnv) (tid : String) (s : VizState)
        (run : String → Except String RunResult) (e : String),
      venv.query_runner = some run →
      run s.cleaned_sql_query = Except.error e →
      s.cleaned_sql_query = "" →
      (viz_query_execution_node venv tid s).2 = []) := by
  refine ⟨?_, ?_, ?_, ?_⟩
  · intro env prior q
    exact run_workflow_log_count env (initial_state prior q)
  · intro venv tid s run res hq hr
    simp [viz_query_execution_node, hq, hr]
  · intro venv tid s run e hq hr hcl
    simp [viz_query_execution_node, hq, hr, hcl]
  · intro venv tid s run e hq hr hcl
    rw [hcl] at hr
    simp [viz_query_execution_node, hq, hr, hcl]

/-- Witness for C6 (amended): a successful viz execution attempt is
logged with status `"success"` and the row count. -/
theorem C6_execution_logging_witness :
    (viz_query_execution_node
        ⟨some (fun _ => Except.ok (RunResult.list_of ["r1", "r2"]))⟩
        "thread-1" vizDemoState).2 =
      [Event.log_attempt "How many active loans are there?"
        "SELECT COUNT(*) FROM loan_onboarding;" "thread-1" "success" 2] :=
  C6_execution_logging.2.1
    ⟨some (fun _ => Except.ok (RunResult.list_of ["r1", "r2"]))⟩
    "thread-1" vizDemoState (fun _ => Except.ok (RunResult.list_of ["r1", "r2"]))
    (RunResult.list_of ["r1", "r2"]) rfl rfl

/-- Counterexample for C8: with non-empty history, a model call that
succeeds but returns only whitespace makes the resolver's output the
empty string — the claimed "output is a non-empty string when the model
call succeeds" fails. -/
theorem C8_context_resolver_counterexample :
    envWhitespaceRewrite.llm_rewrite
      (formatHistory [⟨Role.user, "a"⟩, ⟨Role.assistant, "b"⟩]) "next" =
      Except.ok "   " ∧
    (rewrite_question_node envWhitespaceRewrite
      (initial_state [⟨Role.user, "a"⟩, ⟨Role.assistant, "b"⟩]
        "next")).1.user_question = "" ∧
    (rewrite_question_node envWhitespaceRewrite
      (initial_state [⟨Role.user, "a"⟩, ⟨Role.assistant, "b"⟩]
        "next")).1.current_step = "question_rewriting_complete" := by
  refine ⟨rfl, by decide, by decide⟩

/-- C8 (amended): with empty prior history (only the current message)
the resolver returns the question unchanged and marks the stage skipped;
with non-empty history and a successful model call, the resolver's
output is the model's content stripped of surrounding whitespace (so an
all-whitespace model response yields an empty output). -/
theorem C8_context_resolver :
    (∀ (env : AgentEnv) (s : SQLAgentState), s.messages.length ≤ 1 →
      (rewrite_question_node env s).1.user_question = s.user_question ∧
      (rewrite_question_node env s).1.current_step =
        "question_rewriting_skipped") ∧
    (∀ (env : AgentEnv) (q : String),
      (rewrite_question_node env (initial_state [] q)).1.user_question = q ∧
      (rewrite_question_node env (initial_state [] q)).1.current_step =
        "question_rewriting_skipped") ∧
    (∀ (env : AgentEnv) (s : SQLAgentState) (r : String),
      ¬ s.messages.length ≤ 1 →
      env.llm_rewrite (formatHistory s.messages.dropLast) s.user_question =
        Except.ok r →
      (rewrite_question_node env s).1.user_question = pyStrip r ∧
      (rewrite_question_node env s).1.current_step =
        "question_rewriting_complete") := by
  refine ⟨?_, ?_, ?_⟩
  · intro env s h
    constructor <;> simp [rewrite_question_node, h]
  · intro env q
    constructor <;> simp [rewrite_question_node, initial_state]
  · intro env s r h hok
    constructor <;> simp [rewrite_question_node, h, hok]

/-- Witness for C8 (amended): both branches exercised concretely. -/
theorem C8_context_resolver_witness :
    ((initial_state [] "hello").messages.length ≤ 1 ∧
     (rewrite_question_node envWhitespaceRewrite
       (initial_state [] "hello")).1.user_question = "hello") ∧
    (¬ (initial_state [⟨Role.user, "a"⟩, ⟨Role.assistant, "b"⟩]
        "next").messages.length ≤ 1 ∧
     (rewrite_question_node envWhitespaceRewrite
       (initial_state [⟨Role.user, "a"⟩, ⟨Role.assistant, "b"⟩]
         "next")).1.user_question = pyStrip "   ") :=
  ⟨⟨by decide,
    (C8_context_resolver.1 envWhitespaceRewrite (initial_state [] "hello")
      (by decide)).1⟩,
   ⟨by decide,
    (C8_context_resolver.2.2 envWhitespaceRewrite
      (initial_state [⟨Role.user, "a"⟩, ⟨Role.assistant, "b"⟩] "next") "   "
      (by decide) rfl).1⟩⟩

theorem containsSub_iff_infix (needle : List Char) :
    ∀ hay : List Char, containsSub needle hay = true ↔ needle <:+: hay := by
  intro hay
  induction hay with
  | nil =>
    simp [containsSub, List.isEmpty_iff]
  | cons c rest ih =>
    simp only [containsSub, Bool.or_eq_true]
    rw [ih]
    constructor
    · rintro (hpre | hinf)
      · exact (List.isPrefixOf_iff_prefix.mp hpre).isInfix
      · exact hinf.trans (List.infix_cons List.infix_rfl)
    · intro hinf
      rcases List.infix_cons_iff.mp hinf with hpre | hinf2
      · exact Or.inl (List.isPrefixOf_iff_prefix.mpr hpre)
      · exact Or.inr hinf2

/-- C10: Verdict derivation — the validation node's `is_safe` flag is
exactly the substring test `"unsafe" not in safety_result.lower()` on
the safety analyzer's message: the verdict stored for a non-empty
generation is `isSafeMsg` of the analyzer's message, and `isSafeMsg m`
is `true` precisely when the lower-cased message does not contain the
substring `"unsafe"` — regardless of whether the statement itself is
safe. -/
theorem C10_verdict_derivation :
    (∀ (env : AgentEnv) (s : SQLAgentState), s.raw_sql_query ≠ "" →
      (query_validation_node env s).1.validation_result =
        some { is_safe :=
                 isSafeMsg (env.safe_sql
                   (extract_sql_query s.raw_sql_query true)),
               safety_message :=
                 env.safe_sql (extract_sql_query s.raw_sql_query true),
               has_syntax_errors := false }) ∧
    (∀ m : String, isSafeMsg m = true ↔
      ¬ ("unsafe".data <:+: (toLowerStr m).data)) := by
  constructor
  · intro env s h
    rcases query_validation_node_cases env s with ⟨hraw, hv⟩ | ⟨hraw, hv⟩
    · exact absurd hraw h
    · rw [hv]
  · intro m
    simp [isSafeMsg, ← containsSub_iff_infix]

set_option maxRecDepth 20000 in
/-- Witness for C10: a message that merely mentions "UNSAFE" while
describing a harmless statement yields `is_safe = false`. -/
theorem C10_verdict_derivation_witness :
    (query_validation_node envDropRun
        { initial_state [] "q" with
            raw_sql_query := "DROP TABLE loan_onboarding;" }).1.validation_result =
      some { is_safe := false,
             safety_message := "UNSAFE: the statement contains DROP.",
             has_syntax_errors := false } ∧
    (isSafeMsg "This SELECT statement is UNSAFE to run." = true ↔
      ¬ ("unsafe".data <:+:
        (toLowerStr "This SELECT statement is UNSAFE to run.").data)) := by
  constructor
  · have h := C10_verdict_derivation.1 envDropRun
      ({ initial_state [] "q" with
          raw_sql_query := "DROP TABLE loan_onboarding;" }) (by decide)
    rw [h]
    decide
  · exact C10_verdict_derivation.2 "This SELECT statement is UNSAFE to run."

theorem add_to_conversation_get (store : ConversationStore) (sid : String)
    (m : Msg) :
    get_conversation_history (add_to_conversation store sid m) sid =
      (store sid ++ [m]).drop ((store sid ++ [m]).length - 20) := by
  unfold get_conversation_history add_to_conversation
  simp only [if_true]
  by_cases h : 20 < (store sid ++ [m]).length
  · rw [if_pos h]
  · rw [if_neg h, Nat.sub_eq_zero_of_le (by omega), List.drop_zero]

theorem dropLastN_append (n : Nat) (a b : List Msg) :
    ((a.drop (a.length - n)) ++ b).drop
        (((a.drop (a.length - n)) ++ b).length - n) =
      (a ++ b).drop ((a ++ b).length - n) := by
  rw [List.drop_append_eq_append_drop, List.drop_append_eq_append_drop,
    List.drop_drop]
  congr 1
  · congr 1
    simp only [List.length_append, List.length_drop]
    omega
  · congr 1
    simp only [List.length_append, List.length_drop]
    omega

theorem add_all_get (sid : String) :
    ∀ (msgs : List Msg) (store : ConversationStore),
      (store sid).length ≤ 20 →
      get_conversation_history (add_all store sid msgs) sid =
        (store sid ++ msgs).drop ((store sid ++ msgs).length - 20) := by
  intro msgs
  induction msgs with
  | nil =>
    intro store hlen
    unfold add_all get_conversation_history
    simp only [List.foldl_nil, List.append_nil]
    rw [Nat.sub_eq_zero_of_le hlen, List.drop_zero]
  | cons m ms ih =>
    intro store hlen
    have hstep : add_all store sid (m :: ms) =
        add_all (add_to_conversation store sid m) sid ms := rfl
    rw [hstep]
    have hget := add_to_conversation_get store sid m
    have hlen2 : ((add_to_conversation store sid m) sid).length ≤ 20 := by
      have : (add_to_conversation store sid m) sid =
          (store sid ++ [m]).drop ((store sid ++ [m]).length - 20) := hget
      rw [this]
      simp only [List.length_drop, List.length_append]
      omega
    rw [ih _ hlen2]
    have hget2 : (add_to_conversation store sid m) sid =
        (store sid ++ [m]).drop ((store sid ++ [m]).length - 20) := hget
    rw [hget2]
    rw [dropLastN_append 20 (store sid ++ [m]) ms]
    simp [List.append_assoc]

/-- C7: History cap — each append to a thread key yields exactly the
most recent 20 messages of the appended sequence, in order (the oldest
are dropped from the front); consequently the history length never
exceeds 20, and appending 25 turns to a fresh key leaves exactly the
last 20 (`drop 5`) in order. -/
theorem C7_history_cap :
    (∀ (store : ConversationStore) (sid : String) (m : Msg),
      get_conversation_history (add_to_conversation store sid m) sid =
        (store sid ++ [m]).drop ((store sid ++ [m]).length - 20)) ∧
    (∀ (store : ConversationStore) (sid : String) (m : Msg),
      (get_conversation_history (add_to_conversation store sid m)
        sid).length ≤ 20) ∧
    (∀ (sid : String) (msgs : List Msg), msgs.length = 25 →
      get_conversation_history (add_all emptyStore sid msgs) sid =
        msgs.drop 5) := by
  refine ⟨add_to_conversation_get, ?_, ?_⟩
  · intro store sid m
    rw [add_to_conversation_get]
    simp only [List.length_drop, List.length_append]
    omega
  · intro sid msgs hlen
    rw [add_all_get sid msgs emptyStore (by simp [emptyStore])]
    simp [emptyStore, hlen]

/-- Witness for C7: 25 concrete turns on one key leave exactly the most
recent 20. -/
theorem C7_history_cap_witness :
    demoMsgs.length = 25 ∧
    get_conversation_history (add_all emptyStore "k" demoMsgs) "k" =
      demoMsgs.drop 5 :=
  ⟨by simp [demoMsgs],
   C7_history_cap.2.2 "k" demoMsgs (by simp [demoMsgs])⟩
